import Mathlib

set_option maxRecDepth 100000

/-!
# Verification of `setup.py` — PKI / secrets bootstrap tool

A shallow embedding of the bootstrap script `setup.py`. The script's
observable behaviour is modelled as a list of filesystem/process events
(`Event`), produced by one Lean definition per Python function, together
with an interpreter (`applyEvent`) turning event lists into filesystem
states. External commands (`openssl`, `cp`) are modelled by the event they
emit plus the file effects they have when they succeed; whether a given
command fails is a parameter of the run (`Env.fail`), as are the
umask-dependent default creation modes (`Env.keyMode` for key files written
by the external tool, `Env.fileMode` for files created by `open('w')`).
-/

namespace Setup

/-- One observable step of the bootstrap process. -/
inductive Event where
  /-- `Path(dir).mkdir(parents=True, exist_ok=True)` -/
  | mkdir (path : String)
  /-- a shell command was invoked (`subprocess.run(cmd, shell=True)`) -/
  | runCmd (cmd : String)
  /-- a command run *without* `check=True` exited non-zero; execution continues -/
  | cmdFailed (cmd : String)
  /-- effect of `openssl genrsa -out path bits`: a private-key file appears
      at the tool's default creation mode -/
  | createKey (path : String) (bits : Nat) (mode : Nat)
  /-- effect of an `openssl` command writing a non-key output file
      (certificate, CSR, serial file) -/
  | createFile (path : String) (mode : Nat)
  /-- Python `open(path, 'w')` followed by `f.write(content)` -/
  | write (path : String) (content : String) (mode : Nat)
  /-- Python `open(path, 'a')` followed by `f.write(content)` -/
  | append (path : String) (content : String) (mode : Nat)
  /-- `os.chmod(path, mode)` -/
  | chmod (path : String) (mode : Nat)
  /-- `os.remove(path)` -/
  | remove (path : String)
  /-- effect of `cp src dst` -/
  | copy (src : String) (dst : String)
  /-- `sys.exit(1)`: the process stops with a non-zero exit code -/
  | exitNonZero
  deriving DecidableEq, Repr

/-- A file on disk: path, textual content, permission mode (as a number,
`0o600 = 384`, `0o644 = 420`). -/
structure FEntry where
  path : String
  content : String
  mode : Nat
  deriving DecidableEq, Repr

/-- The filesystem is the list of files present (directories are not
tracked; no claim concerns them). -/
abbrev FS := List FEntry

/-- Look a file up by path. -/
def findFile (fs : FS) (p : String) : Option FEntry :=
  fs.find? (fun e => e.path == p)

/-- Does the file exist? -/
def fsHas (fs : FS) (p : String) : Bool :=
  (findFile fs p).isSome

/-- Permission mode of the file, if present. -/
def fsMode (fs : FS) (p : String) : Option Nat :=
  (findFile fs p).map (fun e => e.mode)

/-- Content of the file, if present. -/
def fsContent (fs : FS) (p : String) : Option String :=
  (findFile fs p).map (fun e => e.content)

/-- Create-or-truncate semantics of `open(p, 'w')` (and of a tool writing
an output file): an existing file keeps its mode and gets the new content;
a fresh file is created with the default mode `m`. -/
def writeTo (fs : FS) (p c : String) (m : Nat) : FS :=
  match findFile fs p with
  | some e => fs.map (fun x => if x.path == p then ⟨p, c, e.mode⟩ else x)
  | none => ⟨p, c, m⟩ :: fs

/-- Append semantics of `open(p, 'a')`. -/
def appendTo (fs : FS) (p c : String) (m : Nat) : FS :=
  match findFile fs p with
  | some e => fs.map (fun x => if x.path == p then ⟨p, e.content ++ c, e.mode⟩ else x)
  | none => ⟨p, c, m⟩ :: fs

/-- `os.chmod`. -/
def chmodAt (fs : FS) (p : String) (m : Nat) : FS :=
  fs.map (fun x => if x.path == p then ⟨x.path, x.content, m⟩ else x)

/-- Interpret one event as a filesystem transformation. -/
def applyEvent (fs : FS) : Event → FS
  | .mkdir _ => fs
  | .runCmd _ => fs
  | .cmdFailed _ => fs
  | .createKey p _ m => writeTo fs p "PRIVATE KEY" m
  | .createFile p m => writeTo fs p "DATA" m
  | .write p c m => writeTo fs p c m
  | .append p c m => appendTo fs p c m
  | .chmod p m => chmodAt fs p m
  | .remove p => fs.filter (fun e => !(e.path == p))
  | .copy s d =>
      match findFile fs s with
      | some e => writeTo fs d e.content e.mode
      | none => fs
  | .exitNonZero => fs

/-- Run a whole event list. -/
def applyEvents (fs : FS) (es : List Event) : FS :=
  es.foldl applyEvent fs

/-- Result of running (part of) the script: the events it performed, and
whether control flow continues afterwards (`ok = false` means the process
terminated, i.e. `sys.exit(1)` was reached or an exception escaped). -/
structure Res where
  events : List Event
  ok : Bool
  deriving Repr

/-- Sequential composition: if the first part terminated the process, the
second never runs. -/
def seq (a b : Res) : Res :=
  if a.ok then ⟨a.events ++ b.events, b.ok⟩ else a

/-- Parameters of a concrete run of the script. -/
structure Env where
  /-- which external shell commands exit non-zero -/
  fail : String → Bool
  /-- `none`: the `.env` write succeeds; `some k`: it raises after `k`
      characters reached the disk -/
  wfail : Option Nat
  /-- `openssl version` works -/
  opensslOk : Bool
  /-- does `.gitignore` already contain the `SSL Certificates` marker? -/
  gitignoreHasMarker : Bool
  /-- default creation mode of key files written by `openssl genrsa`
      (umask/tool dependent, `0o644 = 420` under the common umask `022`) -/
  keyMode : Nat
  /-- default creation mode of files created by Python `open` and by
      non-key `openssl` outputs -/
  fileMode : Nat

/-- `run_command(cmd)`: `subprocess.run(cmd, shell=True, check=True, ...)`;
on a non-zero exit it prints the error and calls `sys.exit(1)`, so nothing
later runs. On success the command's file effects happen. -/
def run_command (env : Env) (cmd : String) (effects : List Event) : Res :=
  if env.fail cmd then ⟨[.runCmd cmd, .exitNonZero], false⟩
  else ⟨.runCmd cmd :: effects, true⟩

/-- A bare `subprocess.run(cmd, shell=True)` (no `check=True`): a non-zero
exit status is silently discarded and execution continues. -/
def subprocess_run (env : Env) (cmd : String) (effects : List Event) : Res :=
  if env.fail cmd then ⟨[.runCmd cmd, .cmdFailed cmd], true⟩
  else ⟨.runCmd cmd :: effects, true⟩

/-! ## Secret generation (`generate_random_string`, `generate_credentials`) -/

/-- `alphabet = string.ascii_letters + string.digits` (62 characters). -/
def alphabet : List Char :=
  "abcdefghijklmnopqrstuvwxyzABCDEFGHIJKLMNOPQRSTUVWXYZ0123456789".data

/-- `generate_random_string(length)`:
`''.join(secrets.choice(alphabet) for _ in range(length))`.
The cryptographically secure source is modelled by an arbitrary oracle
`rand`; `secrets.choice` picks `alphabet[rand i % 62]` (`secrets.choice`
returns an element at an index below the sequence length). Python's
`range(length)` is empty for `length <= 0`, which `Int.toNat` captures. -/
def generate_random_string (rand : Nat → Nat) (length : Int) : String :=
  String.mk ((List.range length.toNat).map
    (fun i => alphabet.getD (rand i % alphabet.length) 'A'))

/-- The credential record built by `generate_credentials`. -/
structure Credentials where
  admin_username : String
  admin_password : String
  admin_email : String
  db_password : String
  jwt_secret : String
  deriving DecidableEq, Repr

/-- `generate_credentials()`: three fresh draws from the secure source
(modelled as three oracles, one per call). -/
def generate_credentials (r1 r2 r3 : Nat → Nat) : Credentials :=
  { admin_username := "admin"
    admin_password := generate_random_string r1 20
    admin_email := "admin@example.com"
    db_password := generate_random_string r2 32
    jwt_secret := generate_random_string r3 32 }

/-! ## Configuration emission (`create_env_file`) -/

/-- The `env_content` f-string of `create_env_file`, with the credential
fields interpolated. -/
def env_content (c : Credentials) : String :=
  "# Admin Credentials\nADMIN_USERNAME=" ++ c.admin_username ++
  "\nADMIN_PASSWORD=" ++ c.admin_password ++
  "\nADMIN_EMAIL=" ++ c.admin_email ++
  "\n\n# JWT Configuration\nJWT_SECRET=" ++ c.jwt_secret ++
  "\nJWT_EXPIRATION=24h\nREFRESH_TOKEN_EXPIRATION=168h\n" ++
  "\n# Database Configuration\nDB_HOST=postgres\nDB_PORT=5432\n" ++
  "DB_NAME=objectstore\nDB_USER=objectstore\nDB_PASSWORD=" ++ c.db_password ++
  "\nDB_SSL_MODE=require\n" ++
  "\n# Storage Configuration\nSTORAGE_BACKEND=local\n" ++
  "STORAGE_ROOT_PATH=/data/storage\n" ++
  "\n# S3 Configuration (if using S3 backend)\nS3_ENDPOINT=\n" ++
  "S3_REGION=us-east-1\nS3_ACCESS_KEY_ID=\nS3_SECRET_ACCESS_KEY=\n" ++
  "S3_BUCKET_PREFIX=\nS3_USE_SSL=true\nS3_FORCE_PATH_STYLE=false\n" ++
  "\n# Server Configuration\nSERVER_PORT=9443\nSERVER_HOST=0.0.0.0\n" ++
  "\n# TLS Configuration\nTLS_ENABLED=true\n" ++
  "TLS_CERT_FILE=/certs/backend.crt\nTLS_KEY_FILE=/certs/backend.key\n" ++
  "TLS_CA_FILE=/certs/ca.crt\n" ++
  "\n# CORS Configuration\n" ++
  "CORS_ALLOWED_ORIGINS=https://localhost:3000,http://localhost:3000\n" ++
  "\n# Rate Limiting\nRATE_LIMIT_ENABLED=true\n" ++
  "RATE_LIMIT_REQUESTS_PER_MINUTE=100\n"

/-- `create_env_file(credentials)`: `open('.env','w')` truncates and writes
`env_content`, then — only afterwards — `os.chmod('.env', 0o600)`. A write
failing after `k` characters leaves that prefix on disk and raises (the
exception escapes and terminates the process non-zero; the chmod never
runs). -/
def create_env_file (env : Env) (c : Credentials) : Res :=
  match env.wfail with
  | none => ⟨[.write ".env" (env_content c) env.fileMode,
              .chmod ".env" 0o600], true⟩
  | some k => ⟨[.write ".env" ((env_content c).take k) env.fileMode,
               .exitNonZero], false⟩

/-! ## Directory layout (`create_directory_structure`) -/

/-- `create_directory_structure()`. -/
def create_directory_structure : Res :=
  ⟨[.mkdir "certs/ca", .mkdir "certs/backend", .mkdir "certs/frontend",
    .mkdir "certs/postgres", .mkdir "docker"], true⟩

/-! ## Certificate authority (`generate_ca_certificate`) -/

def ca_key : String := "certs/ca/ca.key"
def ca_cert : String := "certs/ca/ca.crt"

/-- RSA size used for the CA key (`openssl genrsa ... 4096`). -/
def ca_key_bits : Nat := 4096

/-- RSA size used for every service (leaf) key (`openssl genrsa ... 2048`). -/
def service_key_bits : Nat := 2048

def genrsa_cmd (path : String) (bits : Nat) : String :=
  "openssl genrsa -out " ++ path ++ " " ++ toString bits

def subj (cn : String) : String :=
  "/C=US/ST=State/L=City/O=ObjectStorage/CN=" ++ cn

def ca_req_cmd : String :=
  "openssl req -new -x509 -days 3650 -key " ++ ca_key ++ " -out " ++ ca_cert ++
  " -subj \"" ++ subj "ObjectStorage-CA" ++ "\""

/-- `generate_ca_certificate()`: generates the CA key and the self-signed
certificate. Note: no `os.chmod` is applied to `ca.key`; it stays at the
key-creation default mode. -/
def generate_ca_certificate (env : Env) : Res :=
  seq (run_command env (genrsa_cmd ca_key ca_key_bits)
        [.createKey ca_key ca_key_bits env.keyMode])
      (run_command env ca_req_cmd
        [.createFile ca_cert env.fileMode])

/-! ## Leaf issuance (`generate_service_certificate`) -/

/-- The SAN set passed to `generate_service_certificate` as `alt_names`. -/
structure AltNames where
  dns : List String
  ip : List String
  deriving DecidableEq, Repr

def service_dir (s : String) : String := "certs/" ++ s
def key_file (s : String) : String := service_dir s ++ "/" ++ s ++ ".key"
def csr_file (s : String) : String := service_dir s ++ "/" ++ s ++ ".csr"
def cert_file (s : String) : String := service_dir s ++ "/" ++ s ++ ".crt"
def ext_file (s : String) : String := service_dir s ++ "/" ++ s ++ ".ext"

/-- The list `[f'DNS:{name}' for name in alt_names['dns']] +
[f'IP:{ip}' for ip in alt_names['ip']]`. -/
def san_tokens (alt : AltNames) : List String :=
  alt.dns.map (fun n => "DNS:" ++ n) ++ alt.ip.map (fun i => "IP:" ++ i)

/-- `san_entries = ','.join(...)`. -/
def san_entries (alt : AltNames) : String :=
  String.intercalate "," (san_tokens alt)

/-- The `ext_content` f-string (the extensions descriptor for signing). -/
def ext_content (alt : AltNames) : String :=
  "authorityKeyIdentifier=keyid,issuer\nbasicConstraints=CA:FALSE\n" ++
  "keyUsage = digitalSignature, nonRepudiation, keyEncipherment, dataEncipherment\n" ++
  "subjectAltName = " ++ san_entries alt ++ "\n"

def csr_cmd (s : String) : String :=
  "openssl req -new -key " ++ key_file s ++ " -out " ++ csr_file s ++
  " -subj \"" ++ subj s ++ "\""

def sign_cmd (s : String) : String :=
  "openssl x509 -req -in " ++ csr_file s ++
  " -CA certs/ca/ca.crt -CAkey certs/ca/ca.key -CAcreateserial -out " ++
  cert_file s ++ " -days 825 -sha256 -extfile " ++ ext_file s

/-- `generate_service_certificate(service_name, alt_names)`: key, CSR,
extensions file, CA-signing, then `os.chmod(key_file, 0o600)` and removal
of the CSR and extensions files. Each `run_command` aborts the whole
process on failure, skipping everything after it. -/
def generate_service_certificate (env : Env) (s : String) (alt : AltNames) : Res :=
  seq (run_command env (genrsa_cmd (key_file s) service_key_bits)
        [.createKey (key_file s) service_key_bits env.keyMode])
  (seq (run_command env (csr_cmd s)
        [.createFile (csr_file s) env.fileMode])
  (seq ⟨[.write (ext_file s) (ext_content alt) env.fileMode], true⟩
  (seq (run_command env (sign_cmd s)
        [.createFile (cert_file s) env.fileMode,
         .createFile "certs/ca/ca.srl" env.fileMode])
  ⟨[.chmod (key_file s) 0o600,
    .remove (csr_file s), .remove (ext_file s)], true⟩)))

/-! ## Postgres aliasing (`generate_postgres_certificates`) -/

def postgres_alt : AltNames :=
  ⟨["postgres", "objectstore-db", "localhost", "db", "database"],
   ["127.0.0.1", "0.0.0.0"]⟩

def cp_server_crt_cmd : String :=
  "cp certs/postgres/postgres.crt certs/postgres/server.crt"
def cp_server_key_cmd : String :=
  "cp certs/postgres/postgres.key certs/postgres/server.key"
def cp_ca_crt_cmd : String :=
  "cp certs/ca/ca.crt certs/postgres/ca.crt"

/-- `generate_postgres_certificates()`: issues the postgres leaf, then
copies `postgres.crt`/`postgres.key` to `server.crt`/`server.key` and the
CA certificate into the postgres directory — each with a bare
`subprocess.run` whose status is not checked — then chmods `server.key`. -/
def generate_postgres_certificates (env : Env) : Res :=
  seq (generate_service_certificate env "postgres" postgres_alt)
  (seq (subprocess_run env cp_server_crt_cmd
        [.copy "certs/postgres/postgres.crt" "certs/postgres/server.crt"])
  (seq (subprocess_run env cp_server_key_cmd
        [.copy "certs/postgres/postgres.key" "certs/postgres/server.key"])
  (seq (subprocess_run env cp_ca_crt_cmd
        [.copy "certs/ca/ca.crt" "certs/postgres/ca.crt"])
  ⟨[.chmod "certs/postgres/server.key" 0o600], true⟩)))

/-! ## All services (`generate_all_certificates`) -/

def backend_alt : AltNames :=
  ⟨["backend", "objectstore-backend", "localhost", "api", "server"],
   ["127.0.0.1", "0.0.0.0"]⟩

def frontend_alt : AltNames :=
  ⟨["frontend", "objectstore-frontend", "localhost", "www"],
   ["127.0.0.1", "0.0.0.0"]⟩

/-- `generate_all_certificates()`. -/
def generate_all_certificates (env : Env) : Res :=
  seq (generate_service_certificate env "backend" backend_alt)
  (seq (generate_service_certificate env "frontend" frontend_alt)
  (generate_postgres_certificates env))

/-! ## README and .gitignore bookkeeping -/

/-- The static `readme_content` text of `create_certificate_readme`
(braces and apostrophes written as escapes). -/
def readme_content : String :=
  "# SSL/TLS Certificates\n\n## Development Certificates\n\n" ++
  "These are self-signed certificates generated for **development and testing only**.\n\n" ++
  "### Generated Certificates\n\n" ++
  "- **CA Certificate**: `ca/ca.crt` - Certificate Authority (trust this in your browser for testing)\n" ++
  "- **Backend**: `backend/backend.\x7bcrt,key\x7d` - API server certificates\n" ++
  "- **Frontend**: `frontend/frontend.\x7bcrt,key\x7d` - Nginx/web server certificates\n" ++
  "- **PostgreSQL**: `postgres/postgres.\x7bcrt,key\x7d` and `postgres/server.\x7bcrt,key\x7d` - Database certificates\n\n" ++
  "### Subject Alternative Names (SANs)\n\n" ++
  "All certificates include multiple SANs for flexibility:\n" ++
  "- localhost\n- 0.0.0.0\n- 127.0.0.1\n" ++
  "- Service-specific names (backend, frontend, postgres, etc.)\n\n" ++
  "## Production Deployment\n\n" ++
  "**⚠️ NEVER use these certificates in production!**\n\n" ++
  "For production:\n\n" ++
  "1. Obtain certificates from a trusted CA (Let\x27s Encrypt, DigiCert, etc.)\n" ++
  "2. Replace files in the respective directories\n" ++
  "3. Update environment variables in `.env` files\n" ++
  "4. Restart services: `docker compose restart`\n\n" ++
  "## Trusting Self-Signed Certificates (Development)\n\n" ++
  "### macOS\n```bash\nsudo security add-trusted-cert -d -r trustRoot -k /Library/Keychains/System.keychain certs/ca/ca.crt\n```\n\n" ++
  "### Linux (Ubuntu/Debian)\n```bash\nsudo cp certs/ca/ca.crt /usr/local/share/ca-certificates/objectstore-ca.crt\nsudo update-ca-certificates\n```\n\n" ++
  "### Browser (Chrome/Edge)\n" ++
  "Settings → Privacy and Security → Security → Manage Certificates → Authorities → Import → Select `ca.crt`\n\n" ++
  "### Browser (Firefox)\n" ++
  "Settings → Privacy & Security → Certificates → View Certificates → Authorities → Import → Select `ca.crt`\n\n" ++
  "## Regenerating Certificates\n\n```bash\npython3 setup.py\n```\n\n" ++
  "## Certificate Validity\n\n" ++
  "- **CA Certificate**: 10 years (3650 days)\n" ++
  "- **Service Certificates**: 825 days\n\n" ++
  "## Security Notes\n\n" ++
  "- All private keys are set to mode 0600 (owner read/write only)\n" ++
  "- Certificates are excluded from git via .gitignore\n" ++
  "- These certificates are for development only\n" ++
  "- Use proper certificates from a trusted CA for production\n"

/-- `create_certificate_readme()`. -/
def create_certificate_readme (env : Env) : Res :=
  ⟨[.write "certs/README.md" readme_content env.fileMode], true⟩

/-- The block `update_gitignore` appends. -/
def gitignore_entries : String :=
  "\n# SSL Certificates (DO NOT COMMIT)\ncerts/\n*.key\n*.crt\n*.csr\n" ++
  "*.pem\n*.srl\n\n# Environment files with secrets (DO NOT COMMIT)\n" ++
  ".env\n.env.local\n.env.*.local\n"

/-- `update_gitignore()`: appends the exclusion block unless the marker
`SSL Certificates` is already present in `.gitignore`. -/
def update_gitignore (env : Env) : Res :=
  if env.gitignoreHasMarker then ⟨[], true⟩
  else ⟨[.append ".gitignore" gitignore_entries env.fileMode], true⟩

/-! ## Top-level orchestration (`main`) -/

/-- `main()`: dependency check, directory layout, credential generation,
`.env` emission, CA generation, service certificates, README, `.gitignore`
(the purely presentational `print_summary` has no modelled effect). -/
def main (env : Env) (r1 r2 r3 : Nat → Nat) : Res :=
  if env.opensslOk then
    seq create_directory_structure
    (seq (create_env_file env (generate_credentials r1 r2 r3))
    (seq (generate_ca_certificate env)
    (seq (generate_all_certificates env)
    (seq (create_certificate_readme env)
    (update_gitignore env)))))
  else ⟨[.exitNonZero], false⟩

/-! ## Trace observations used by the theorems -/

/-- Is this event the `.env` configuration-document write? -/
def isEnvWrite : Event → Bool
  | .write p _ _ => p == ".env"
  | _ => false

/-- Is this event the creation of the CA private key? -/
def isCaKeyCreate : Event → Bool
  | .createKey p _ _ => p == ca_key
  | _ => false

/-- Is this event the creation of the backend leaf private key (the first
leaf-issuance effect of the run)? -/
def isBackendKeyCreate : Event → Bool
  | .createKey p _ _ => p == key_file "backend"
  | _ => false

/-- Is this event the creation of the `certs/ca` directory? -/
def isMkdirCertsCa : Event → Bool
  | .mkdir p => p == "certs/ca"
  | _ => false

/-- Is this event the `.gitignore` update (a step that runs after all
certificate work)? -/
def isGitignoreAppend : Event → Bool
  | .append p _ _ => p == ".gitignore"
  | _ => false

/-- Did a non-checked command fail here (failure ignored by the script)? -/
def isCmdFailed : Event → Bool
  | .cmdFailed _ => true
  | _ => false

/-- Environment in which every external command succeeds, the `.env` write
succeeds, openssl is present and `.gitignore` has no marker yet; `km` and
`fm` are the umask-dependent default creation modes. -/
def allOk (km fm : Nat) : Env :=
  ⟨fun _ => false, none, true, false, km, fm⟩

/-- The all-success environment with the common umask-022 defaults
(`0o644 = 420`). -/
def env0 : Env := allOk 0o644 0o644

/-- A run never continues past a `sys.exit(1)`: whenever a `Res` reports
termination, its very last event is the non-zero exit. -/
def stopsAtExit (r : Res) : Prop :=
  r.ok = false → r.events.getLast? = some Event.exitNonZero

/-- The concrete credentials produced when every random draw is index 0. -/
def creds0 : Credentials :=
  generate_credentials (fun _ => 0) (fun _ => 0) (fun _ => 0)

/-- The event trace of a fully successful run under umask-022 defaults. -/
def mainEvents0 : List Event :=
  (main env0 (fun _ => 0) (fun _ => 0) (fun _ => 0)).events

/-- Environment in which only the postgres `cp ... server.crt` aliasing
command exits non-zero. -/
def cpFailEnv : Env :=
  ⟨fun c => c == cp_server_crt_cmd, none, true, false, 0o644, 0o644⟩

/-- Environment in which only the CA key generation command fails. -/
def caFailEnv : Env :=
  ⟨fun c => c == genrsa_cmd ca_key ca_key_bits, none, true, false, 0o644, 0o644⟩

/-- Environment in which only the backend signing command fails. -/
def signFailEnv : Env :=
  ⟨fun c => c == sign_cmd "backend", none, true, false, 0o644, 0o644⟩

/-- Environment in which the `.env` write raises after 5 characters. -/
def wfailEnv : Env :=
  ⟨fun _ => false, some 5, true, false, 0o644, 0o644⟩

/-! ## Helper lemmas: a failing step is always the end of the trace -/

theorem stops_of_ok {r : Res} (h : r.ok = true) : stopsAtExit r := by
  intro h'
  rw [h] at h'
  exact absurd h' (by simp)

theorem stops_seq {a b : Res} (ha : stopsAtExit a) (hb : stopsAtExit b) :
    stopsAtExit (seq a b) := by
  intro h
  unfold seq at h ⊢
  by_cases hok : a.ok = true
  · simp only [hok, if_true] at h ⊢
    have hb' := hb h
    have hne : b.events ≠ [] := by
      intro hnil
      rw [hnil] at hb'
      simp at hb'
    rw [List.getLast?_append_of_ne_nil _ hne]
    exact hb'
  · simp only [Bool.not_eq_true] at hok
    simp only [hok, Bool.false_eq_true, if_false] at h ⊢
    exact ha hok

theorem stops_run_command (env : Env) (cmd : String) (effects : List Event) :
    stopsAtExit (run_command env cmd effects) := by
  intro h
  unfold run_command at h ⊢
  by_cases hf : env.fail cmd = true
  · simp [hf]
  · simp [hf] at h

theorem stops_subprocess_run (env : Env) (cmd : String) (effects : List Event) :
    stopsAtExit (subprocess_run env cmd effects) := by
  apply stops_of_ok
  unfold subprocess_run
  by_cases hf : env.fail cmd = true <;> simp [hf]

theorem stops_create_env_file (env : Env) (c : Credentials) :
    stopsAtExit (create_env_file env c) := by
  intro h
  unfold create_env_file at h ⊢
  rcases hw : env.wfail with _ | k <;> simp_all

theorem stops_generate_ca_certificate (env : Env) :
    stopsAtExit (generate_ca_certificate env) :=
  stops_seq (stops_run_command _ _ _) (stops_run_command _ _ _)

theorem stops_generate_service_certificate (env : Env) (s : String) (alt : AltNames) :
    stopsAtExit (generate_service_certificate env s alt) :=
  stops_seq (stops_run_command _ _ _)
    (stops_seq (stops_run_command _ _ _)
      (stops_seq (stops_of_ok rfl)
        (stops_seq (stops_run_command _ _ _) (stops_of_ok rfl))))

theorem stops_generate_postgres_certificates (env : Env) :
    stopsAtExit (generate_postgres_certificates env) :=
  stops_seq (stops_generate_service_certificate _ _ _)
    (stops_seq (stops_subprocess_run _ _ _)
      (stops_seq (stops_subprocess_run _ _ _)
        (stops_seq (stops_subprocess_run _ _ _) (stops_of_ok rfl))))

theorem stops_generate_all_certificates (env : Env) :
    stopsAtExit (generate_all_certificates env) :=
  stops_seq (stops_generate_service_certificate _ _ _)
    (stops_seq (stops_generate_service_certificate _ _ _)
      (stops_generate_postgres_certificates _))

theorem stops_update_gitignore (env : Env) : stopsAtExit (update_gitignore env) := by
  apply stops_of_ok
  unfold update_gitignore
  by_cases hg : env.gitignoreHasMarker = true <;> simp [hg]

theorem stops_main (env : Env) (r1 r2 r3 : Nat → Nat) :
    stopsAtExit (main env r1 r2 r3) := by
  unfold main
  by_cases ho : env.opensslOk = true
  · simp only [ho, if_true]
    exact stops_seq (stops_of_ok rfl)
      (stops_seq (stops_create_env_file _ _)
        (stops_seq (stops_generate_ca_certificate _)
          (stops_seq (stops_generate_all_certificates _)
            (stops_seq (stops_of_ok rfl) (stops_update_gitignore _)))))
  · simp only [ho, Bool.false_eq_true, if_false]
    intro _
    rfl

/-! ## Claims -/

/-- C1: the claim says every persisted private-key artifact has mode 0600
immediately after the operation creating it returns. The service keys and
the postgres `server.key` alias do (explicit `os.chmod(..., 0o600)`), but
`generate_ca_certificate` never chmods `certs/ca/ca.key`: the CA key stays
at the external tool's creation mode (0644 = 420 under the common umask
022), contradicting both the claim and the script's own generated README
("All private keys are set to mode 0600"). -/
theorem ca_key_left_at_default_mode :
    (generate_ca_certificate env0).ok = true ∧
    fsMode (applyEvents [] (generate_ca_certificate env0).events) ca_key = some 0o644 ∧
    (0o644 : Nat) ≠ 0o600 ∧
    fsMode (applyEvents [] (generate_service_certificate env0 "backend" backend_alt).events)
      (key_file "backend") = some 0o600 ∧
    fsMode (applyEvents (applyEvents [] (generate_ca_certificate env0).events)
      (generate_postgres_certificates env0).events) "certs/postgres/server.key" =
      some 0o600 := by
  decide

/-- C2: for every requested length L ≥ 1 and every draw of the random
source, `generate_random_string` returns a string of length exactly L all
of whose characters come from the 62-symbol alphanumeric alphabet
(equivalently, are alphanumeric). -/
theorem secret_length_and_alphabet (rand : Nat → Nat) (L : Int) (h : 1 ≤ L) :
    ((generate_random_string rand L).length : Int) = L ∧
    ∀ c ∈ (generate_random_string rand L).data, c ∈ alphabet ∧ c.isAlphanum = true := by
  have hb : ∀ i < alphabet.length,
      alphabet.getD i 'A' ∈ alphabet ∧ (alphabet.getD i 'A').isAlphanum = true := by
    decide
  constructor
  · have hlen : (generate_random_string rand L).length = L.toNat := by
      simp [generate_random_string, String.length]
    rw [hlen]
    exact_mod_cast Int.toNat_of_nonneg (by linarith)
  · intro c hc
    have hdata : (generate_random_string rand L).data =
        (List.range L.toNat).map (fun i => alphabet.getD (rand i % alphabet.length) 'A') :=
      rfl
    rw [hdata, List.mem_map] at hc
    obtain ⟨i, _, rfl⟩ := hc
    exact hb _ (Nat.mod_lt _ (by decide))

/-- C2 witness: the guarantee instantiated at L = 5 with the identity
draw. -/
theorem secret_length_and_alphabet_check :
    (1 : Int) ≤ 5 ∧
    (((generate_random_string (fun i => i) 5).length : Int) = 5 ∧
     ∀ c ∈ (generate_random_string (fun i => i) 5).data,
       c ∈ alphabet ∧ c.isAlphanum = true) :=
  ⟨by decide, secret_length_and_alphabet (fun i => i) 5 (by decide)⟩

/-- C3 counterexample: in a fully successful run the configuration
document `.env` is written (index 5 of the trace) strictly before the CA
key is created (index 8), and the CA and leaf issuance events do occur in
the trace — so config emission does not happen last, after certificate
issuance, as claimed. -/
theorem config_emitted_before_ca :
    List.findIdx isEnvWrite mainEvents0 < List.findIdx isCaKeyCreate mainEvents0 ∧
    List.findIdx isCaKeyCreate mainEvents0 < mainEvents0.length ∧
    List.findIdx isBackendKeyCreate mainEvents0 < mainEvents0.length := by
  decide

/-- C3 amended: the actual order of `main` on every successful run is
directory layout, then secret generation and config emission, then CA
creation, then per-service leaf issuance. -/
theorem bootstrap_actual_step_order (r1 r2 r3 : Nat → Nat) (km fm : Nat) :
    List.findIdx isMkdirCertsCa (main (allOk km fm) r1 r2 r3).events <
      List.findIdx isEnvWrite (main (allOk km fm) r1 r2 r3).events ∧
    List.findIdx isEnvWrite (main (allOk km fm) r1 r2 r3).events <
      List.findIdx isCaKeyCreate (main (allOk km fm) r1 r2 r3).events ∧
    List.findIdx isCaKeyCreate (main (allOk km fm) r1 r2 r3).events <
      List.findIdx isBackendKeyCreate (main (allOk km fm) r1 r2 r3).events ∧
    List.findIdx isBackendKeyCreate (main (allOk km fm) r1 r2 r3).events <
      (main (allOk km fm) r1 r2 r3).events.length := by
  have h1 : List.findIdx isMkdirCertsCa (main (allOk km fm) r1 r2 r3).events = 0 := rfl
  have h2 : List.findIdx isEnvWrite (main (allOk km fm) r1 r2 r3).events = 5 := rfl
  have h3 : List.findIdx isCaKeyCreate (main (allOk km fm) r1 r2 r3).events = 8 := rfl
  have h4 : List.findIdx isBackendKeyCreate (main (allOk km fm) r1 r2 r3).events = 12 := rfl
  have h5 : (main (allOk km fm) r1 r2 r3).events.length = 53 := rfl
  omega

/-- C4 counterexample: if (only) the postgres `cp ... server.crt` aliasing
command fails, the failure is recorded but ignored — later steps (up to
the `.gitignore` update, trace index 52) still run, no non-zero exit is
signalled anywhere, and the bootstrap reports success. -/
theorem cp_failure_not_escalated :
    (main cpFailEnv (fun _ => 0) (fun _ => 0) (fun _ => 0)).ok = true ∧
    List.findIdx isCmdFailed
        (main cpFailEnv (fun _ => 0) (fun _ => 0) (fun _ => 0)).events <
      List.findIdx isGitignoreAppend
        (main cpFailEnv (fun _ => 0) (fun _ => 0) (fun _ => 0)).events ∧
    List.findIdx isGitignoreAppend
        (main cpFailEnv (fun _ => 0) (fun _ => 0) (fun _ => 0)).events <
      (main cpFailEnv (fun _ => 0) (fun _ => 0) (fun _ => 0)).events.length ∧
    Event.exitNonZero ∉ (main cpFailEnv (fun _ => 0) (fun _ => 0) (fun _ => 0)).events := by
  decide

/-- C4 amended: every failure of a step executed through `run_command`
(all openssl invocations), of the `.env` write, or of the dependency check
aborts the bootstrap at once — whenever a run terminates early its very
last event is the non-zero exit, so no later step runs after such a
failure. The exception is the postgres file-copy aliasing: those commands
run without status checking, and a run where one of them fails still
completes successfully. -/
theorem aborts_are_final_but_cp_ignored (env : Env) (r1 r2 r3 : Nat → Nat) :
    ((main env r1 r2 r3).ok = false →
      (main env r1 r2 r3).events.getLast? = some Event.exitNonZero) ∧
    (main cpFailEnv r1 r2 r3).ok = true :=
  ⟨stops_main env r1 r2 r3, rfl⟩

/-- C4 amended, witness: with the CA key generation failing, the run
aborts and its final event is the non-zero exit. -/
theorem aborts_are_final_but_cp_ignored_check :
    (main caFailEnv (fun _ => 0) (fun _ => 0) (fun _ => 0)).ok = false ∧
    (main caFailEnv (fun _ => 0) (fun _ => 0) (fun _ => 0)).events.getLast? =
      some Event.exitNonZero :=
  ⟨by decide,
   (aborts_are_final_but_cp_ignored caFailEnv (fun _ => 0) (fun _ => 0) (fun _ => 0)).1
     (by decide)⟩

/-- C5: the SAN entry list built for a service is exactly the DNS entries
in their given order followed by the IP entries in their given order, each
with its `DNS:`/`IP:` tag, and `san_entries` is their comma-join. -/
theorem san_entries_order (alt : AltNames) (j k : Nat)
    (hj : j < alt.dns.length) (hk : k < alt.ip.length) :
    san_entries alt = String.intercalate "," (san_tokens alt) ∧
    (san_tokens alt).length = alt.dns.length + alt.ip.length ∧
    (san_tokens alt).getD j "" = "DNS:" ++ alt.dns.getD j "" ∧
    (san_tokens alt).getD (alt.dns.length + k) "" = "IP:" ++ alt.ip.getD k "" := by
  refine ⟨rfl, by simp [san_tokens], ?_, ?_⟩
  · have h1 : alt.dns[j]? = some alt.dns[j] := List.getElem?_eq_getElem hj
    rw [List.getD_eq_getElem?_getD, List.getD_eq_getElem?_getD, san_tokens,
      List.getElem?_append_left (by simpa using hj), List.getElem?_map, h1]
    rfl
  · have h1 : alt.ip[k]? = some alt.ip[k] := List.getElem?_eq_getElem hk
    rw [List.getD_eq_getElem?_getD, List.getD_eq_getElem?_getD, san_tokens,
      List.getElem?_append_right (by simp), List.getElem?_map]
    simp [h1]

/-- C5 witness: the order property instantiated on the backend service's
SAN set at indices j = 1, k = 0. -/
theorem san_entries_order_check :
    (1 < backend_alt.dns.length ∧ 0 < backend_alt.ip.length) ∧
    (san_entries backend_alt = String.intercalate "," (san_tokens backend_alt) ∧
     (san_tokens backend_alt).length = backend_alt.dns.length + backend_alt.ip.length ∧
     (san_tokens backend_alt).getD 1 "" = "DNS:" ++ backend_alt.dns.getD 1 "" ∧
     (san_tokens backend_alt).getD (backend_alt.dns.length + 0) "" =
       "IP:" ++ backend_alt.ip.getD 0 "") :=
  ⟨⟨by decide, by decide⟩, san_entries_order backend_alt 1 0 (by decide) (by decide)⟩

/-- C6 counterexample: if the CA-signing step of the backend issuance
fails, the process exits immediately and both transient artifacts — the
CSR and the extensions descriptor — are left on disk, contrary to the
claim that they never survive the operation on any path. -/
theorem transient_files_survive_failed_signing :
    (generate_service_certificate signFailEnv "backend" backend_alt).ok = false ∧
    fsHas (applyEvents [] (generate_service_certificate signFailEnv "backend" backend_alt).events)
      (csr_file "backend") = true ∧
    fsHas (applyEvents [] (generate_service_certificate signFailEnv "backend" backend_alt).events)
      (ext_file "backend") = true := by
  decide

/-- C6 amended: on every successful issuance the transient CSR and
extensions files are removed before the operation returns, while the key
and certificate persist; on failing paths they can survive (see the
counterexample). -/
theorem transient_files_removed_on_success (alt : AltNames) (km fm : Nat) :
    (generate_service_certificate (allOk km fm) "backend" alt).ok = true ∧
    fsHas (applyEvents [] (generate_service_certificate (allOk km fm) "backend" alt).events)
      (csr_file "backend") = false ∧
    fsHas (applyEvents [] (generate_service_certificate (allOk km fm) "backend" alt).events)
      (ext_file "backend") = false ∧
    fsHas (applyEvents [] (generate_service_certificate (allOk km fm) "backend" alt).events)
      (key_file "backend") = true ∧
    fsHas (applyEvents [] (generate_service_certificate (allOk km fm) "backend" alt).events)
      (cert_file "backend") = true :=
  ⟨rfl, rfl, rfl, rfl, rfl⟩

/-- C7 counterexample: after the first event of `create_env_file` (the
content write) the full secret configuration document is on disk at the
process default creation mode 0644 — group/other-readable — and only the
subsequent chmod tightens it to 0600: the restrictive permission is
applied after the content is written, not before or atomically with it. -/
theorem env_file_world_readable_window :
    (create_env_file env0 creds0).ok = true ∧
    fsContent (applyEvents [] ((create_env_file env0 creds0).events.take 1)) ".env" =
      some (env_content creds0) ∧
    fsMode (applyEvents [] ((create_env_file env0 creds0).events.take 1)) ".env" =
      some 0o644 ∧
    (0o644 : Nat) ≠ 0o600 ∧
    fsMode (applyEvents [] (create_env_file env0 creds0).events) ".env" = some 0o600 := by
  decide

/-- C7 amended: restrictive permissions are applied only after the secret
content is already on disk: `.env` is created at the default open mode
holding the full document and then chmod-ed to 0600, and a service key is
chmod-ed to 0600 only after the external tool created it at its default
mode. -/
theorem permissions_applied_after_content (c : Credentials) (alt : AltNames) (km fm : Nat) :
    (create_env_file (allOk km fm) c).events =
      [Event.write ".env" (env_content c) fm, Event.chmod ".env" 0o600] ∧
    fsMode (applyEvents [] ((create_env_file (allOk km fm) c).events.take 1)) ".env" =
      some fm ∧
    fsContent (applyEvents [] ((create_env_file (allOk km fm) c).events.take 1)) ".env" =
      some (env_content c) ∧
    fsMode (applyEvents [] (create_env_file (allOk km fm) c).events) ".env" = some 0o600 ∧
    fsMode (applyEvents []
        ((generate_service_certificate (allOk km fm) "backend" alt).events.take 2))
      (key_file "backend") = some km ∧
    fsMode (applyEvents [] (generate_service_certificate (allOk km fm) "backend" alt).events)
      (key_file "backend") = some 0o600 :=
  ⟨rfl, rfl, rfl, rfl, rfl, rfl⟩

/-- C8 counterexample: if the `.env` write raises after 5 characters, the
run aborts leaving `.env` holding exactly those 5 characters — neither the
complete document, nor absent, nor empty: the emission is not atomic. -/
theorem env_partial_write_left_behind :
    (create_env_file wfailEnv creds0).ok = false ∧
    fsContent (applyEvents [] (create_env_file wfailEnv creds0).events) ".env" =
      some ((env_content creds0).take 5) ∧
    (env_content creds0).take 5 ≠ env_content creds0 ∧
    (env_content creds0).take 5 ≠ "" := by
  decide

/-- C8 amended: `create_env_file` writes the document directly to `.env`
(no temporary file, no rename): a write failing after k characters aborts
the run and leaves `.env` containing exactly the first k characters of the
document. -/
theorem env_write_leaves_prefix_on_failure (c : Credentials) (k : Nat) (km fm : Nat) :
    (create_env_file ⟨fun _ => false, some k, true, false, km, fm⟩ c).ok = false ∧
    (create_env_file ⟨fun _ => false, some k, true, false, km, fm⟩ c).events.getLast? =
      some Event.exitNonZero ∧
    fsContent
      (applyEvents [] (create_env_file ⟨fun _ => false, some k, true, false, km, fm⟩ c).events)
      ".env" = some ((env_content c).take k) :=
  ⟨rfl, rfl, rfl⟩

/-- C9: the CA key is generated with a strictly larger RSA size (4096)
than every leaf key (2048): those are the sizes carried by the
key-creation events of the CA and of each service issuance. -/
theorem ca_key_stronger_than_leaf_keys :
    Event.createKey ca_key ca_key_bits env0.keyMode ∈ (generate_ca_certificate env0).events ∧
    Event.createKey (key_file "backend") service_key_bits env0.keyMode ∈
      (generate_service_certificate env0 "backend" backend_alt).events ∧
    Event.createKey (key_file "frontend") service_key_bits env0.keyMode ∈
      (generate_service_certificate env0 "frontend" frontend_alt).events ∧
    Event.createKey (key_file "postgres") service_key_bits env0.keyMode ∈
      (generate_postgres_certificates env0).events ∧
    service_key_bits < ca_key_bits := by
  decide

/-- C10: for every non-positive requested length the secret generator
returns the empty string (total, no error), because Python's
`range(length)` is empty there. -/
theorem secret_empty_on_nonpositive_length (rand : Nat → Nat) (L : Int) (h : L ≤ 0) :
    generate_random_string rand L = "" := by
  unfold generate_random_string
  rw [Int.toNat_of_nonpos h]
  rfl

/-- C10 witness: instantiated at lengths -3 and 0. -/
theorem secret_empty_on_nonpositive_length_check :
    ((-3 : Int) ≤ 0 ∧ generate_random_string (fun i => i) (-3) = "") ∧
    ((0 : Int) ≤ 0 ∧ generate_random_string (fun i => i) 0 = "") :=
  ⟨⟨by decide, secret_empty_on_nonpositive_length (fun i => i) (-3) (by decide)⟩,
   ⟨by decide, secret_empty_on_nonpositive_length (fun i => i) 0 (by decide)⟩⟩

end Setup
